import Mathlib

/-!
Verification of the tsunami playback / detection core of the oceans-and-seas
repository. The playback manager and the severity classifier are embedded over
exact rationals; the wave-propagation and geodesy code over the reals.
JavaScript numbers are modelled as exact arithmetic, `Date` values as real
epoch milliseconds, and `Math.random()` draws as explicit oracle functions.
-/

namespace Playback

/-- Shallow embedding of `TsunamiPlaybackState` (tsunami-playback module).
`currentEvent` is an `Option` because a JavaScript negative array index
yields `undefined`, which can be stored in the field. -/
structure TsunamiPlaybackState where
  isPlaying : Bool
  isPaused : Bool
  currentTime : ℚ
  totalDuration : ℚ
  playbackSpeed : ℚ
  currentEvent : Option String
  progress : ℚ
deriving DecidableEq, Repr

/-- The fixed enumerated speed set `PLAYBACK_SPEEDS`. -/
def PLAYBACK_SPEEDS : List ℚ := [0.25, 0.5, 1, 2, 4, 8, 16]

/-- The default playback state `DEFAULT_PLAYBACK_STATE`. -/
def DEFAULT_PLAYBACK_STATE : TsunamiPlaybackState :=
  { isPlaying := false
    isPaused := false
    currentTime := 0
    totalDuration := 240
    playbackSpeed := 1
    currentEvent := some "tohoku_2011"
    progress := 0 }

/-- `updateState` always ends by recomputing
`progress = currentTime / totalDuration * 100`; this helper is that final
recomputation, applied after merging the requested field updates. -/
def recomputeProgress (s : TsunamiPlaybackState) : TsunamiPlaybackState :=
  { s with progress := s.currentTime / s.totalDuration * 100 }

/-- `play()`: if `currentTime >= totalDuration`, first reset `currentTime` to 0
(one `updateState` call), then set `isPlaying`/`isPaused` (a second call). -/
def play (s : TsunamiPlaybackState) : TsunamiPlaybackState :=
  recomputeProgress
    { (if s.totalDuration ≤ s.currentTime then
        recomputeProgress { s with currentTime := 0 }
      else s) with
      isPlaying := true, isPaused := false }

/-- `pause()`. -/
def pause (s : TsunamiPlaybackState) : TsunamiPlaybackState :=
  recomputeProgress { s with isPlaying := false, isPaused := true }

/-- `stop()`. -/
def stop (s : TsunamiPlaybackState) : TsunamiPlaybackState :=
  recomputeProgress { s with isPlaying := false, isPaused := false, currentTime := 0 }

/-- `restart()`. -/
def restart (s : TsunamiPlaybackState) : TsunamiPlaybackState :=
  recomputeProgress { s with isPlaying := true, isPaused := false, currentTime := 0 }

/-- `setSpeed(speed)`: `PLAYBACK_SPEEDS.includes(speed) ? speed : 1`. -/
def setSpeed (s : TsunamiPlaybackState) (speed : ℚ) : TsunamiPlaybackState :=
  recomputeProgress { s with playbackSpeed := if speed ∈ PLAYBACK_SPEEDS then speed else 1 }

/-- `seekTo(time)`: `Math.max(0, Math.min(time, totalDuration))`. -/
def seekTo (s : TsunamiPlaybackState) (time : ℚ) : TsunamiPlaybackState :=
  recomputeProgress { s with currentTime := max 0 (min time s.totalDuration) }

/-- `seekToProgress(progress)`: clamp to `[0,100]`, convert via `totalDuration`. -/
def seekToProgress (s : TsunamiPlaybackState) (progress : ℚ) : TsunamiPlaybackState :=
  recomputeProgress { s with currentTime := max 0 (min progress 100) / 100 * s.totalDuration }

/-- The fixed ordered event catalog used by `nextEvent` / `previousEvent`. -/
def EVENTS : List String := ["tohoku_2011", "alaska_2020", "chile_2015"]

/-- JavaScript `Array.prototype.indexOf` (returns `-1` when absent; an
`undefined` probe is never found). -/
def jsIndexOf : List String → Option String → Int
  | [], _ => -1
  | e :: rest, x =>
    if some e = x then 0
    else
      if jsIndexOf rest x = -1 then -1 else jsIndexOf rest x + 1

/-- JavaScript array indexing: a negative or out-of-range index reads
`undefined`. -/
def jsGet (l : List String) (i : Int) : Option String :=
  if i < 0 then none else l.get? i.toNat

/-- `nextEvent()`: `(currentIndex + 1) % events.length`, reset time, stop. -/
def nextEvent (s : TsunamiPlaybackState) : TsunamiPlaybackState :=
  recomputeProgress { s with
    currentEvent := jsGet EVENTS ((jsIndexOf EVENTS s.currentEvent + 1) % (EVENTS.length : Int))
    currentTime := 0
    isPlaying := false
    isPaused := false }

/-- `previousEvent()`: `currentIndex === 0 ? events.length - 1 : currentIndex - 1`,
reset time, stop. -/
def previousEvent (s : TsunamiPlaybackState) : TsunamiPlaybackState :=
  recomputeProgress { s with
    currentEvent := jsGet EVENTS
      (if jsIndexOf EVENTS s.currentEvent = 0 then (EVENTS.length : Int) - 1
       else jsIndexOf EVENTS s.currentEvent - 1)
    currentTime := 0
    isPlaying := false
    isPaused := false }

/-- `setEvent(eventId)`: stores the given id unconditionally, resets time, stops. -/
def setEvent (s : TsunamiPlaybackState) (eventId : String) : TsunamiPlaybackState :=
  recomputeProgress { s with
    currentEvent := some eventId
    currentTime := 0
    isPlaying := false
    isPaused := false }

/-- One firing of the `setInterval` callback in `startPlayback`, with
`deltaTime` the measured real seconds since the previous firing. The callback
returns early when not playing; otherwise it advances simulated time by
`deltaTime * playbackSpeed`, and on meeting the horizon first flips the
play/pause flags (one `updateState`) and then writes the clamped time
(a second `updateState`). -/
def tick (s : TsunamiPlaybackState) (deltaTime : ℚ) : TsunamiPlaybackState :=
  if s.isPlaying then
    if s.totalDuration ≤ s.currentTime + deltaTime * s.playbackSpeed then
      recomputeProgress
        { recomputeProgress { s with isPlaying := false, isPaused := true } with
          currentTime := s.totalDuration }
    else
      recomputeProgress { s with currentTime := s.currentTime + deltaTime * s.playbackSpeed }
  else s

/-- One step of the playback state machine: any control call with an arbitrary
argument, or one timer tick with a nonnegative real-elapsed time. -/
inductive Step : TsunamiPlaybackState → TsunamiPlaybackState → Prop
  | play (s) : Step s (play s)
  | pause (s) : Step s (pause s)
  | stop (s) : Step s (stop s)
  | restart (s) : Step s (restart s)
  | setSpeed (s) (v : ℚ) : Step s (setSpeed s v)
  | seekTo (s) (t : ℚ) : Step s (seekTo s t)
  | seekToProgress (s) (p : ℚ) : Step s (seekToProgress s p)
  | nextEvent (s) : Step s (nextEvent s)
  | previousEvent (s) : Step s (previousEvent s)
  | setEvent (s) (id : String) : Step s (setEvent s id)
  | tick (s) (d : ℚ) (hd : 0 ≤ d) : Step s (tick s d)

/-- States reachable from the default state by control calls and ticks. -/
def Reachable (s : TsunamiPlaybackState) : Prop :=
  Relation.ReflTransGen Step DEFAULT_PLAYBACK_STATE s

/-- The inductive invariant of the playback state machine. -/
def Inv (s : TsunamiPlaybackState) : Prop :=
  0 ≤ s.currentTime ∧ s.currentTime ≤ s.totalDuration ∧ s.totalDuration = 240 ∧
    s.playbackSpeed ∈ PLAYBACK_SPEEDS ∧ s.progress = s.currentTime / s.totalDuration * 100

theorem one_mem_speeds : (1:ℚ) ∈ PLAYBACK_SPEEDS := by
  simp [PLAYBACK_SPEEDS]

theorem speeds_pos : ∀ v ∈ PLAYBACK_SPEEDS, 0 < v := by
  intro v hv
  simp [PLAYBACK_SPEEDS] at hv
  rcases hv with h | h | h | h | h | h | h <;> rw [h] <;> norm_num

theorem inv_default : Inv DEFAULT_PLAYBACK_STATE :=
  ⟨le_refl 0, by norm_num [DEFAULT_PLAYBACK_STATE], rfl, one_mem_speeds,
    by norm_num [DEFAULT_PLAYBACK_STATE]⟩

theorem inv_step {s t : TsunamiPlaybackState} (hs : Inv s) (hst : Step s t) : Inv t := by
  obtain ⟨h0, h1, h2, h3, h4⟩ := hs
  have htd : (0:ℚ) < s.totalDuration := by rw [h2]; norm_num
  cases hst with
  | play =>
    unfold Playback.play
    by_cases hc : s.totalDuration ≤ s.currentTime
    · rw [if_pos hc]
      exact ⟨le_refl 0, le_of_lt htd, h2, h3, rfl⟩
    · rw [if_neg hc]
      exact ⟨h0, h1, h2, h3, rfl⟩
  | pause => exact ⟨h0, h1, h2, h3, rfl⟩
  | stop => exact ⟨le_refl 0, le_of_lt htd, h2, h3, rfl⟩
  | restart => exact ⟨le_refl 0, le_of_lt htd, h2, h3, rfl⟩
  | setSpeed v =>
    refine ⟨h0, h1, h2, ?_, rfl⟩
    show (if v ∈ PLAYBACK_SPEEDS then v else 1) ∈ PLAYBACK_SPEEDS
    by_cases hv : v ∈ PLAYBACK_SPEEDS
    · rwa [if_pos hv]
    · rw [if_neg hv]; exact one_mem_speeds
  | seekTo t =>
    exact ⟨le_max_left 0 _, max_le (le_of_lt htd) (min_le_right _ _), h2, h3, rfl⟩
  | seekToProgress p =>
    refine ⟨?_, ?_, h2, h3, rfl⟩
    · exact mul_nonneg (div_nonneg (le_max_left 0 _) (by norm_num)) (le_of_lt htd)
    · show max 0 (min p 100) / 100 * s.totalDuration ≤ s.totalDuration
      have hle : max 0 (min p 100) ≤ 100 := max_le (by norm_num) (min_le_right _ _)
      nlinarith
  | nextEvent => exact ⟨le_refl 0, le_of_lt htd, h2, h3, rfl⟩
  | previousEvent => exact ⟨le_refl 0, le_of_lt htd, h2, h3, rfl⟩
  | setEvent id => exact ⟨le_refl 0, le_of_lt htd, h2, h3, rfl⟩
  | tick d hd =>
    unfold Playback.tick
    by_cases hp : s.isPlaying
    · rw [if_pos hp]
      have hsp : 0 < s.playbackSpeed := speeds_pos _ h3
      by_cases hend : s.totalDuration ≤ s.currentTime + d * s.playbackSpeed
      · rw [if_pos hend]
        exact ⟨le_of_lt htd, le_refl _, h2, h3, rfl⟩
      · rw [if_neg hend]
        refine ⟨?_, le_of_not_le hend, h2, h3, rfl⟩
        show (0:ℚ) ≤ s.currentTime + d * s.playbackSpeed
        have hdelta : 0 ≤ d * s.playbackSpeed := mul_nonneg hd (le_of_lt hsp)
        linarith
    · rw [if_neg hp]
      exact ⟨h0, h1, h2, h3, h4⟩

theorem reachable_inv {s : TsunamiPlaybackState} (h : Reachable s) : Inv s := by
  induction h with
  | refl => exact inv_default
  | tail _ hstep ih => exact inv_step ih hstep

/-- C1: in any playing state, a tick whose advance
`currentTime + deltaTime * playbackSpeed` meets or exceeds `totalDuration`
leaves `currentTime` exactly equal to `totalDuration` (never above it),
with `isPlaying = false` and `isPaused = true` — the auto-stop lands in the
Paused terminal condition, never in the fully Stopped state. -/
theorem tick_at_horizon_clamps (s : TsunamiPlaybackState) (d : ℚ)
    (hplay : s.isPlaying = true)
    (hadv : s.totalDuration ≤ s.currentTime + d * s.playbackSpeed) :
    (tick s d).currentTime = s.totalDuration ∧
    (tick s d).isPlaying = false ∧ (tick s d).isPaused = true := by
  unfold tick
  rw [hplay]
  simp only [if_true, if_pos hadv]
  exact ⟨rfl, rfl, rfl⟩

/-- A concrete playing state one simulated minute before the horizon. -/
def nearEndState : TsunamiPlaybackState :=
  { isPlaying := true
    isPaused := false
    currentTime := 239
    totalDuration := 240
    playbackSpeed := 1
    currentEvent := some "tohoku_2011"
    progress := 239 / 240 * 100 }

theorem tick_at_horizon_clamps_witness :
    nearEndState.isPlaying = true ∧
    nearEndState.totalDuration ≤ nearEndState.currentTime + 2 * nearEndState.playbackSpeed ∧
    ((tick nearEndState 2).currentTime = nearEndState.totalDuration ∧
      (tick nearEndState 2).isPlaying = false ∧ (tick nearEndState 2).isPaused = true) :=
  ⟨rfl, by norm_num [nearEndState],
    tick_at_horizon_clamps nearEndState 2 rfl (by norm_num [nearEndState])⟩

/-- C2: every state reachable from the default state through any sequence of
control calls and (nonnegative-elapsed-time) ticks keeps
`0 ≤ currentTime ≤ totalDuration`, and its `progress` equals
`currentTime / totalDuration * 100`, recomputed from `currentTime` on every
mutation. -/
theorem reachable_bounds_and_progress (s : TsunamiPlaybackState) (h : Reachable s) :
    0 ≤ s.currentTime ∧ s.currentTime ≤ s.totalDuration ∧
    s.progress = s.currentTime / s.totalDuration * 100 :=
  ⟨(reachable_inv h).1, (reachable_inv h).2.1, (reachable_inv h).2.2.2.2⟩

theorem reachable_bounds_and_progress_witness :
    Reachable (pause DEFAULT_PLAYBACK_STATE) ∧
    (0 ≤ (pause DEFAULT_PLAYBACK_STATE).currentTime ∧
      (pause DEFAULT_PLAYBACK_STATE).currentTime ≤ (pause DEFAULT_PLAYBACK_STATE).totalDuration ∧
      (pause DEFAULT_PLAYBACK_STATE).progress =
        (pause DEFAULT_PLAYBACK_STATE).currentTime /
          (pause DEFAULT_PLAYBACK_STATE).totalDuration * 100) :=
  ⟨Relation.ReflTransGen.single (Step.pause _),
    reachable_bounds_and_progress _ (Relation.ReflTransGen.single (Step.pause _))⟩

/-- C5: `seekTo(t)` writes `t` clamped to `[0, totalDuration]` into
`currentTime`, leaves the play/pause flags unchanged, and for `t` already in
range yields `progress = t / totalDuration * 100` by the same formula. -/
theorem seekTo_spec (s : TsunamiPlaybackState) (t : ℚ) :
    (seekTo s t).currentTime = max 0 (min t s.totalDuration) ∧
    (seekTo s t).isPlaying = s.isPlaying ∧
    (seekTo s t).isPaused = s.isPaused ∧
    (0 ≤ t → t ≤ s.totalDuration →
      (seekTo s t).progress = t / s.totalDuration * 100) := by
  refine ⟨rfl, rfl, rfl, fun ht0 ht1 => ?_⟩
  show max 0 (min t s.totalDuration) / s.totalDuration * 100 = t / s.totalDuration * 100
  rw [min_eq_left ht1, max_eq_right ht0]

theorem seekTo_spec_witness :
    (0:ℚ) ≤ 60 ∧ (60:ℚ) ≤ DEFAULT_PLAYBACK_STATE.totalDuration ∧
    (seekTo DEFAULT_PLAYBACK_STATE 60).progress =
      60 / DEFAULT_PLAYBACK_STATE.totalDuration * 100 :=
  ⟨by norm_num, by norm_num [DEFAULT_PLAYBACK_STATE],
    (seekTo_spec DEFAULT_PLAYBACK_STATE 60).2.2.2 (by norm_num)
      (by norm_num [DEFAULT_PLAYBACK_STATE])⟩

/-- C6 counterexample: `setEvent` with an id outside the catalog does switch
the event — the stored id is the invalid one, not the previous valid id, so
the claimed silent normalization does not happen. -/
theorem setEvent_invalid_counterexample :
    "atlantis_9999" ∉ EVENTS ∧
    DEFAULT_PLAYBACK_STATE.currentEvent = some "tohoku_2011" ∧
    (setEvent DEFAULT_PLAYBACK_STATE "atlantis_9999").currentEvent ≠
      DEFAULT_PLAYBACK_STATE.currentEvent ∧
    (setEvent DEFAULT_PLAYBACK_STATE "atlantis_9999").currentEvent =
      some "atlantis_9999" :=
  ⟨by decide, rfl, by decide, rfl⟩

/-- C6 amended: `setEvent(id)` adopts any given id unconditionally (valid or
not), resets `currentTime` to 0 and forces the Stopped flags; no validation
against the catalog is performed. -/
theorem setEvent_adopts_any_id (s : TsunamiPlaybackState) (eventId : String) :
    (setEvent s eventId).currentEvent = some eventId ∧
    (setEvent s eventId).currentTime = 0 ∧
    (setEvent s eventId).isPlaying = false ∧
    (setEvent s eventId).isPaused = false :=
  ⟨rfl, rfl, rfl, rfl⟩

/-- C7: `setSpeed(v)` adopts `v` exactly when `v` is in the enumerated speed
set; otherwise it resets the multiplier to 1 (a valid enumerated value) and
never adopts the non-enumerated value. The embedding is a total function, so
no error is ever raised. -/
theorem setSpeed_spec (s : TsunamiPlaybackState) (v : ℚ) :
    (v ∈ PLAYBACK_SPEEDS → (setSpeed s v).playbackSpeed = v) ∧
    (v ∉ PLAYBACK_SPEEDS →
      (setSpeed s v).playbackSpeed = 1 ∧ (setSpeed s v).playbackSpeed ≠ v) ∧
    (setSpeed s v).playbackSpeed ∈ PLAYBACK_SPEEDS := by
  refine ⟨fun h => ?_, fun h => ⟨?_, ?_⟩, ?_⟩
  · show (if v ∈ PLAYBACK_SPEEDS then v else 1) = v
    rw [if_pos h]
  · show (if v ∈ PLAYBACK_SPEEDS then v else 1) = 1
    rw [if_neg h]
  · show (if v ∈ PLAYBACK_SPEEDS then v else 1) ≠ v
    rw [if_neg h]
    exact fun he => h (he ▸ one_mem_speeds)
  · show (if v ∈ PLAYBACK_SPEEDS then v else 1) ∈ PLAYBACK_SPEEDS
    by_cases hv : v ∈ PLAYBACK_SPEEDS
    · rwa [if_pos hv]
    · rw [if_neg hv]; exact one_mem_speeds

theorem setSpeed_spec_witness :
    (3:ℚ) ∉ PLAYBACK_SPEEDS ∧
    ((setSpeed DEFAULT_PLAYBACK_STATE 3).playbackSpeed = 1 ∧
      (setSpeed DEFAULT_PLAYBACK_STATE 3).playbackSpeed ≠ 3) :=
  ⟨by norm_num [PLAYBACK_SPEEDS],
    (setSpeed_spec DEFAULT_PLAYBACK_STATE 3).2.1 (by norm_num [PLAYBACK_SPEEDS])⟩

/-- C10: from the reachable state obtained by `setEvent` with a non-catalog
id, `previousEvent()` computes index `-1 - 1 = -2`, reads `undefined` from the
three-element catalog (here: `none`), while `nextEvent()` from the same state
computes index `(-1 + 1) % 3 = 0` and lands on the first catalog entry. -/
theorem previousEvent_underflow_on_invalid_event :
    Reachable (setEvent DEFAULT_PLAYBACK_STATE "mystery_event") ∧
    (∀ e ∈ EVENTS,
      (setEvent DEFAULT_PLAYBACK_STATE "mystery_event").currentEvent ≠ some e) ∧
    (previousEvent (setEvent DEFAULT_PLAYBACK_STATE "mystery_event")).currentEvent =
      none ∧
    (nextEvent (setEvent DEFAULT_PLAYBACK_STATE "mystery_event")).currentEvent =
      some "tohoku_2011" :=
  ⟨Relation.ReflTransGen.single (Step.setEvent _ _), by decide, by decide, by decide⟩

end Playback

namespace Detection

/-- The four severity levels, ordered `normal < medium < high < critical`. -/
inductive Severity where
  | normal
  | medium
  | high
  | critical
deriving DecidableEq, Repr

/-- Total order on severities used by the monotonicity property. -/
def rank : Severity → ℕ
  | Severity.normal => 0
  | Severity.medium => 1
  | Severity.high => 2
  | Severity.critical => 3

/-- The two height fields of `NOAABuoyReading` that the classifier consults;
`waterColumnHeight` is optional in the TypeScript type. -/
structure NOAABuoyReading where
  waveHeight : ℚ
  waterColumnHeight : Option ℚ
deriving DecidableEq, Repr

/-- The JavaScript idiom `r.waveHeight || r.waterColumnHeight || 0`
(`0` is falsy, `undefined` is falsy). -/
def effectiveHeight (r : NOAABuoyReading) : ℚ :=
  if r.waveHeight ≠ 0 then r.waveHeight
  else
    match r.waterColumnHeight with
    | some w => if w ≠ 0 then w else 0
    | none => 0

/-- `heightChangePercent = (heightChange / (previousHeight || 1)) * 100`. -/
def percentChange (currentHeight previousHeight : ℚ) : ℚ :=
  (currentHeight - previousHeight) / (if previousHeight = 0 then 1 else previousHeight) * 100

/-- `readings.slice(-4)`: the trailing window of up to four entries. -/
def trailingWindow (hs : List ℚ) : List ℚ := hs.drop (hs.length - 4)

/-- `avgHeight = heights.reduce((sum, h) => sum + h, 0) / heights.length`
over the trailing window. -/
def trailingAvg (hs : List ℚ) : ℚ :=
  (trailingWindow hs).sum / ((trailingWindow hs).length : ℚ)

/-- The API route's `detectTsunamiStatus`, expressed on the list of effective
heights (most recent last). The first four branches are the trend-aware chain
guarded by `readings.length >= 3`; when none of them returns, control falls
through to the initial-detection chain, which also serves the
`readings.length < 3` case. -/
def detectCore (hs : List ℚ) : Bool × Severity :=
  match hs.reverse with
  | currentHeight :: previousHeight :: _ =>
    if 3 ≤ hs.length then
      if 6 < currentHeight ∨ 7 < currentHeight then (true, Severity.critical)
      else if 4 < currentHeight ∨
          (2.5 < currentHeight ∧ 30 < percentChange currentHeight previousHeight) then
        (true, Severity.high)
      else if 2.5 < currentHeight ∨ 20 < percentChange currentHeight previousHeight ∨
          2 < trailingAvg hs then
        (true, Severity.medium)
      else if 2 < currentHeight ∨ 15 < percentChange currentHeight previousHeight then
        (true, Severity.medium)
      else if 6 < currentHeight then (true, Severity.critical)
      else if 4 < currentHeight then (true, Severity.high)
      else if 2.5 < currentHeight then (true, Severity.medium)
      else (false, Severity.normal)
    else
      if 6 < currentHeight then (true, Severity.critical)
      else if 4 < currentHeight then (true, Severity.high)
      else if 2.5 < currentHeight then (true, Severity.medium)
      else (false, Severity.normal)
  | _ => (false, Severity.normal)

/-- `detectTsunamiStatus` of the API route (`src/app/api/buoys/route.ts`):
each reading is first projected through
`waveHeight || waterColumnHeight || 0`. -/
def detectTsunamiStatus (readings : List NOAABuoyReading) : Bool × Severity :=
  detectCore (readings.map effectiveHeight)

/-- The page-level variant's monotone-non-decreasing flag with 10% backward
slack: `heights.every((val, i) => i === 0 || val >= heights[i - 1] * 0.9)`. -/
def nonDecreasing09 : List ℚ → Bool
  | x :: y :: rest => decide (x * 0.9 ≤ y) && nonDecreasing09 (y :: rest)
  | _ => true

/-- The decision table exactly as the claim states it (thresholds instantiated
at the source's values, which is the reading most favorable to the claim):
Critical above 7, High above 4 or moderate-and-rapid, Medium above 2.5 or on
percent change above 15 or on a trailing average above 2 **while the
monotone-non-decreasing flag holds**. -/
def specTableSeverity (hs : List ℚ) : Severity :=
  match hs.reverse with
  | currentHeight :: previousHeight :: _ =>
    if 7 < currentHeight then Severity.critical
    else if 4 < currentHeight ∨
        (2.5 < currentHeight ∧ 30 < percentChange currentHeight previousHeight) then
      Severity.high
    else if 2.5 < currentHeight ∨ 15 < percentChange currentHeight previousHeight ∨
        (3 ≤ hs.length ∧ 2 < trailingAvg hs ∧
          nonDecreasing09 (trailingWindow hs) = true) then
      Severity.medium
    else Severity.normal
  | _ => Severity.normal

/-- Falling heights whose trailing window still averages above 2 m. -/
def counterexampleReadings : List NOAABuoyReading :=
  [{ waveHeight := 4, waterColumnHeight := none },
   { waveHeight := 4, waterColumnHeight := none },
   { waveHeight := 1, waterColumnHeight := none },
   { waveHeight := 1, waterColumnHeight := none }]

/-- C3 counterexample: on heights `[4, 4, 1, 1]` the API route returns
`medium` (its trailing-average branch has no monotone-non-decreasing guard),
while the claim's decision table returns `normal` (the flag fails on the drop
from 4 to 1), so the route does not implement the claimed table. -/
theorem detect_vs_spec_table_counterexample :
    detectTsunamiStatus counterexampleReadings = (true, Severity.medium) ∧
    specTableSeverity (counterexampleReadings.map effectiveHeight) = Severity.normal := by
  have hmap : counterexampleReadings.map effectiveHeight = [4, 4, 1, 1] := by
    norm_num [counterexampleReadings, effectiveHeight]
  have hrev : ([4, 4, 1, 1] : List ℚ).reverse = [1, 1, 4, 4] := by
    norm_num
  have havg : trailingAvg [4, 4, 1, 1] = 5 / 2 := by
    norm_num [trailingAvg, trailingWindow]
  have hflag : nonDecreasing09 (trailingWindow [4, 4, 1, 1]) = false := by
    have h36 : decide ((4:ℚ) * 0.9 ≤ 1) = false := decide_eq_false (by norm_num)
    simp [trailingWindow, nonDecreasing09, h36]
  constructor
  · rw [detectTsunamiStatus, hmap, detectCore, hrev]
    norm_num [percentChange, havg]
  · rw [hmap, specTableSeverity, hrev]
    norm_num [percentChange, hflag]

/-- `isTsunami` as the route computes it: every non-normal branch returns
`isTsunami: true`, the final branch returns `false`. -/
def severityAlert : Severity → Bool
  | Severity.normal => false
  | _ => true

/-- The decision table the route actually implements: with at least 3
readings, Critical iff `currentHeight > 6`, High iff `currentHeight > 4` or
(moderate height and >30% increase), Medium iff `currentHeight > 2` or
`percentChange > 15` or trailing average `> 2` — with no
monotone-non-decreasing guard; with exactly 2 readings, the fallback chain
`> 6 / > 4 / > 2.5`. -/
def amendedSeverity (hs : List ℚ) : Severity :=
  match hs.reverse with
  | currentHeight :: previousHeight :: _ =>
    if 3 ≤ hs.length then
      if 6 < currentHeight then Severity.critical
      else if 4 < currentHeight ∨
          (2.5 < currentHeight ∧ 30 < percentChange currentHeight previousHeight) then
        Severity.high
      else if 2 < currentHeight ∨ 15 < percentChange currentHeight previousHeight ∨
          2 < trailingAvg hs then
        Severity.medium
      else Severity.normal
    else
      if 6 < currentHeight then Severity.critical
      else if 4 < currentHeight then Severity.high
      else if 2.5 < currentHeight then Severity.medium
      else Severity.normal
  | _ => Severity.normal

theorem detectCore_eq_amended (hs : List ℚ) :
    detectCore hs = (severityAlert (amendedSeverity hs), amendedSeverity hs) := by
  unfold detectCore amendedSeverity
  rcases hrev : hs.reverse with _ | ⟨c, _ | ⟨p, rest⟩⟩
  · simp [severityAlert]
  · simp [severityAlert]
  · by_cases hL : 3 ≤ hs.length
    · by_cases h6 : 6 < c
      · simp [hL, h6, severityAlert]
      · have h7 : ¬(7 < c) := fun hh => h6 (by linarith)
        by_cases hB : 4 < c ∨ (2.5 < c ∧ 30 < percentChange c p)
        · simp [hL, h6, h7, hB, severityAlert]
        · by_cases hM1 : 2.5 < c ∨ 20 < percentChange c p ∨ 2 < trailingAvg hs
          · have hM : 2 < c ∨ 15 < percentChange c p ∨ 2 < trailingAvg hs := by
              rcases hM1 with hh | hh | hh
              · exact Or.inl (by linarith)
              · exact Or.inr (Or.inl (by linarith))
              · exact Or.inr (Or.inr hh)
            simp [hL, h6, h7, hB, hM1, hM, severityAlert]
          · by_cases hM2 : 2 < c ∨ 15 < percentChange c p
            · have hM : 2 < c ∨ 15 < percentChange c p ∨ 2 < trailingAvg hs := by
                rcases hM2 with hh | hh
                · exact Or.inl hh
                · exact Or.inr (Or.inl hh)
              simp [hL, h6, h7, hB, hM1, hM2, hM, severityAlert]
            · have hM : ¬(2 < c ∨ 15 < percentChange c p ∨ 2 < trailingAvg hs) := by
                rintro (hh | hh | hh)
                · exact hM2 (Or.inl hh)
                · exact hM2 (Or.inr hh)
                · exact hM1 (Or.inr (Or.inr hh))
              have hc2 : ¬(2 < c) := fun hh => hM2 (Or.inl hh)
              have h4 : ¬(4 < c) := fun hh => hc2 (by linarith)
              have h25 : ¬(2.5 < c) := fun hh => hc2 (by linarith)
              have hpc20 : ¬(20 < percentChange c p) := fun hh => hM1 (Or.inr (Or.inl hh))
              have hpc15 : ¬(15 < percentChange c p) := fun hh => hM2 (Or.inr hh)
              have havg2 : ¬(2 < trailingAvg hs) := fun hh => hM1 (Or.inr (Or.inr hh))
              simp [hL, h6, h7, h4, h25, hc2, hpc20, hpc15, havg2, severityAlert]
    · by_cases h6 : 6 < c
      · simp [hL, h6, severityAlert]
      · by_cases h4 : 4 < c
        · simp [hL, h6, h4, severityAlert]
        · by_cases h25 : 2.5 < c
          · simp [hL, h6, h4, h25, severityAlert]
          · simp [hL, h6, h4, h25, severityAlert]

/-- C3 amended: the API-route classifier implements the decision table of
`amendedSeverity` (first match in descending severity) on the effective
heights, and reports `isTsunami = true` exactly on the non-normal levels. -/
theorem detectTsunamiStatus_eq_amended (readings : List NOAABuoyReading) :
    detectTsunamiStatus readings =
      (severityAlert (amendedSeverity (readings.map effectiveHeight)),
        amendedSeverity (readings.map effectiveHeight)) :=
  detectCore_eq_amended _

theorem severityAlert_eq_true_iff (v : Severity) :
    severityAlert v = true ↔ v ≠ Severity.normal := by
  cases v <;> simp [severityAlert]

theorem percentChange_mono {p h1 h2 : ℚ} (hp : 0 ≤ p) (h : h1 ≤ h2) :
    percentChange h1 p ≤ percentChange h2 p := by
  unfold percentChange
  have hd : (0:ℚ) ≤ (if p = 0 then 1 else p) := by
    split_ifs with hz
    · norm_num
    · exact hp
  exact mul_le_mul_of_nonneg_right
    (div_le_div_of_nonneg_right (by linarith) hd) (by norm_num)

theorem trailingAvg_append_mono (hs : List ℚ) {h1 h2 : ℚ} (h : h1 ≤ h2) :
    trailingAvg (hs ++ [h1]) ≤ trailingAvg (hs ++ [h2]) := by
  unfold trailingAvg trailingWindow
  have hlen1 : (hs ++ [h1]).length = hs.length + 1 := by simp
  have hlen2 : (hs ++ [h2]).length = hs.length + 1 := by simp
  rw [hlen1, hlen2]
  have hn : hs.length + 1 - 4 ≤ hs.length := by omega
  rw [List.drop_append_of_le_length hn, List.drop_append_of_le_length hn]
  rw [List.sum_append, List.sum_append, List.length_append, List.length_append]
  simp only [List.sum_cons, List.sum_nil, List.length_cons, List.length_nil,
    add_zero, zero_add]
  have hpos : (0:ℚ) ≤ (((hs.drop (hs.length + 1 - 4)).length + 1 : ℕ) : ℚ) := by
    positivity
  exact div_le_div_of_nonneg_right (by linarith) hpos

theorem rank_chain3_mono {a1 b1 m1 a2 b2 m2 : Prop}
    [Decidable a1] [Decidable b1] [Decidable m1]
    [Decidable a2] [Decidable b2] [Decidable m2]
    (ia : a1 → a2) (ib : b1 → b2) (im : m1 → m2) :
    rank (if a1 then Severity.critical else if b1 then Severity.high
          else if m1 then Severity.medium else Severity.normal) ≤
    rank (if a2 then Severity.critical else if b2 then Severity.high
          else if m2 then Severity.medium else Severity.normal) := by
  split_ifs <;> first | tauto | decide

theorem amendedSeverity_append_mono (hs : List ℚ) {h1 h2 : ℚ}
    (hne : hs ≠ []) (hp : ∀ x ∈ hs, 0 ≤ x) (h : h1 ≤ h2) :
    rank (amendedSeverity (hs ++ [h1])) ≤ rank (amendedSeverity (hs ++ [h2])) := by
  obtain ⟨p, t, hrev⟩ : ∃ p t, hs.reverse = p :: t := by
    cases hr : hs.reverse with
    | nil => exact absurd (by simpa using congrArg List.reverse hr) hne
    | cons a l => exact ⟨a, l, rfl⟩
  have hp0 : 0 ≤ p := by
    refine hp p ?_
    have hmem : p ∈ hs.reverse := by rw [hrev]; exact List.mem_cons_self _ _
    simpa using hmem
  have hrev1 : (hs ++ [h1]).reverse = h1 :: p :: t := by simp [hrev]
  have hrev2 : (hs ++ [h2]).reverse = h2 :: p :: t := by simp [hrev]
  have hpc := percentChange_mono hp0 h
  have havg := trailingAvg_append_mono hs h
  have ia : 6 < h1 → 6 < h2 := fun hh => by linarith
  have ib : (4 < h1 ∨ (2.5 < h1 ∧ 30 < percentChange h1 p)) →
      (4 < h2 ∨ (2.5 < h2 ∧ 30 < percentChange h2 p)) := by
    rintro (hh | ⟨hh1, hh2⟩)
    · exact Or.inl (by linarith)
    · exact Or.inr ⟨by linarith, by linarith⟩
  have im : (2 < h1 ∨ 15 < percentChange h1 p ∨ 2 < trailingAvg (hs ++ [h1])) →
      (2 < h2 ∨ 15 < percentChange h2 p ∨ 2 < trailingAvg (hs ++ [h2])) := by
    rintro (hh | hh | hh)
    · exact Or.inl (by linarith)
    · exact Or.inr (Or.inl (by linarith))
    · exact Or.inr (Or.inr (by linarith))
  have ia4 : 4 < h1 → 4 < h2 := fun hh => by linarith
  have ia25 : 2.5 < h1 → 2.5 < h2 := fun hh => by linarith
  have hlen : (hs ++ [h1]).length = (hs ++ [h2]).length := by simp
  unfold amendedSeverity
  rw [hrev1, hrev2]
  dsimp only
  by_cases hL : 3 ≤ (hs ++ [h1]).length
  · have hL2 : 3 ≤ (hs ++ [h2]).length := by rw [← hlen]; exact hL
    rw [if_pos hL, if_pos hL2]
    exact rank_chain3_mono ia ib im
  · have hL2 : ¬3 ≤ (hs ++ [h2]).length := by rw [← hlen]; exact hL
    rw [if_neg hL, if_neg hL2]
    exact rank_chain3_mono ia ia4 ia25

/-- C8: the API-route classifier is monotone in the current (last) effective
height: with the earlier readings fixed and all heights nonnegative,
increasing the last height never strictly lowers the severity level in the
total order normal < medium < high < critical. -/
theorem detect_monotone_in_current_height (rs : List NOAABuoyReading)
    (r1 r2 : NOAABuoyReading) (hne : rs ≠ [])
    (hp : ∀ r ∈ rs, 0 ≤ effectiveHeight r)
    (h1pos : 0 ≤ effectiveHeight r1)
    (h : effectiveHeight r1 ≤ effectiveHeight r2) :
    rank (detectTsunamiStatus (rs ++ [r1])).2 ≤
      rank (detectTsunamiStatus (rs ++ [r2])).2 := by
  unfold detectTsunamiStatus
  rw [List.map_append, List.map_append]
  simp only [List.map_cons, List.map_nil]
  rw [detectCore_eq_amended, detectCore_eq_amended]
  refine amendedSeverity_append_mono _ ?_ ?_ h
  · simpa using hne
  · intro x hx
    simp only [List.mem_map] at hx
    obtain ⟨r, hr, hrfl⟩ := hx
    exact hrfl ▸ hp r hr

theorem detect_monotone_in_current_height_witness :
    effectiveHeight { waveHeight := 2, waterColumnHeight := none } ≤
      effectiveHeight { waveHeight := 3, waterColumnHeight := none } ∧
    rank (detectTsunamiStatus
        [{ waveHeight := 1, waterColumnHeight := none },
         { waveHeight := 2, waterColumnHeight := none }]).2 ≤
      rank (detectTsunamiStatus
        [{ waveHeight := 1, waterColumnHeight := none },
         { waveHeight := 3, waterColumnHeight := none }]).2 :=
  ⟨by norm_num [effectiveHeight],
    detect_monotone_in_current_height [{ waveHeight := 1, waterColumnHeight := none }]
      { waveHeight := 2, waterColumnHeight := none }
      { waveHeight := 3, waterColumnHeight := none }
      (by simp)
      (by
        intro r hr
        simp only [List.mem_singleton] at hr
        rw [hr]
        norm_num [effectiveHeight])
      (by norm_num [effectiveHeight])
      (by norm_num [effectiveHeight])⟩

end Detection

namespace Propagation

/-- JavaScript `Math.atan2(y, x)` (standard quadrant convention). -/
noncomputable def atan2 (y x : ℝ) : ℝ :=
  if 0 < x then Real.arctan (y / x)
  else if x < 0 ∧ 0 ≤ y then Real.arctan (y / x) + Real.pi
  else if x < 0 ∧ y < 0 then Real.arctan (y / x) - Real.pi
  else if x = 0 ∧ 0 < y then Real.pi / 2
  else if x = 0 ∧ y < 0 then -(Real.pi / 2)
  else 0

/-- The haversine distance computed inside
`TsunamiPlaybackManager.calculateWaveArrival` (`R = 6371` km). -/
noncomputable def greatCircleDistanceKm (buoyLat buoyLon eventLat eventLon : ℝ) : ℝ :=
  6371 *
    (2 * atan2
      (Real.sqrt
        (Real.sin ((eventLat - buoyLat) * Real.pi / 180 / 2) *
            Real.sin ((eventLat - buoyLat) * Real.pi / 180 / 2) +
          Real.cos (buoyLat * Real.pi / 180) * Real.cos (eventLat * Real.pi / 180) *
              Real.sin ((eventLon - buoyLon) * Real.pi / 180 / 2) *
            Real.sin ((eventLon - buoyLon) * Real.pi / 180 / 2)))
      (Real.sqrt
        (1 -
          (Real.sin ((eventLat - buoyLat) * Real.pi / 180 / 2) *
              Real.sin ((eventLat - buoyLat) * Real.pi / 180 / 2) +
            Real.cos (buoyLat * Real.pi / 180) * Real.cos (eventLat * Real.pi / 180) *
                Real.sin ((eventLon - buoyLon) * Real.pi / 180 / 2) *
              Real.sin ((eventLon - buoyLon) * Real.pi / 180 / 2)))))

/-- `calculateWaveArrival`: haversine distance at `waveSpeed = 200` km/h,
returned in minutes. -/
noncomputable def calculateWaveArrival (buoyLat buoyLon eventLat eventLon : ℝ) : ℝ :=
  greatCircleDistanceKm buoyLat buoyLon eventLat eventLon / 200 * 60

/-- `LeafletMap.createWavePropagation`:
`waveSpeedKmPerMin = (200 * 60) / 1000` (≈12 km/min). -/
noncomputable def mapWaveSpeedKmPerMin : ℝ := 200 * 60 / 1000

/-- `waveRadius = currentTime * waveSpeedKmPerMin * 1000` (meters). -/
noncomputable def mapWaveRadiusMeters (currentTime : ℝ) : ℝ :=
  currentTime * mapWaveSpeedKmPerMin * 1000

/-- The flat-plane distance used by `generateTsunamiReadings`:
`Math.sqrt((buoyLat - epicenterLat)^2 + (buoyLon - epicenterLon)^2) * 111`. -/
noncomputable def simDistanceKm (buoyLat buoyLon epicenterLat epicenterLon : ℝ) : ℝ :=
  Real.sqrt ((buoyLat - epicenterLat) ^ 2 + (buoyLon - epicenterLon) ^ 2) * 111

/-- The arrival time used internally by `generateTsunamiReadings`:
`(distance / 500) * 60` minutes (`waveSpeed = 500` km/h). -/
noncomputable def simArrivalMinutes (buoyLat buoyLon epicenterLat epicenterLon : ℝ) : ℝ :=
  simDistanceKm buoyLat buoyLon epicenterLat epicenterLon / 500 * 60

theorem greatCircle_antipodal_equator :
    greatCircleDistanceKm 0 0 0 180 = 6371 * Real.pi := by
  unfold greatCircleDistanceKm
  have ha : Real.sin (((0:ℝ) - 0) * Real.pi / 180 / 2) *
        Real.sin (((0:ℝ) - 0) * Real.pi / 180 / 2) +
      Real.cos ((0:ℝ) * Real.pi / 180) * Real.cos ((0:ℝ) * Real.pi / 180) *
          Real.sin (((180:ℝ) - 0) * Real.pi / 180 / 2) *
        Real.sin (((180:ℝ) - 0) * Real.pi / 180 / 2) = 1 := by
    have e0 : ((0:ℝ) - 0) * Real.pi / 180 / 2 = 0 := by ring
    have e1 : ((180:ℝ) - 0) * Real.pi / 180 / 2 = Real.pi / 2 := by ring
    have e2 : (0:ℝ) * Real.pi / 180 = 0 := by ring
    rw [e0, e1, e2, Real.sin_zero, Real.cos_zero, Real.sin_pi_div_two]
    ring
  rw [ha]
  have h11 : (1:ℝ) - 1 = 0 := by ring
  rw [h11, Real.sqrt_one, Real.sqrt_zero]
  have hat : atan2 1 0 = Real.pi / 2 := by
    unfold atan2
    rw [if_neg (lt_irrefl (0:ℝ)), if_neg ?hc1, if_neg ?hc2,
      if_pos ⟨rfl, one_pos⟩]
    case hc1 => exact fun hh => lt_irrefl (0:ℝ) hh.1
    case hc2 => exact fun hh => lt_irrefl (0:ℝ) hh.1
  rw [hat]
  ring

theorem simDistance_antipodal_equator : simDistanceKm 0 0 0 180 = 19980 := by
  unfold simDistanceKm
  have h : ((0:ℝ) - 0) ^ 2 + ((0:ℝ) - 180) ^ 2 = 180 ^ 2 := by ring
  rw [h, Real.sqrt_sq (by norm_num : (0:ℝ) ≤ 180)]
  norm_num

/-- C4: the three propagation models are mutually inconsistent. For a station
at (0°, 0°) and an epicenter at (0°, 180°): the time at which the map's drawn
wave front (12 km/min) reaches the station's great-circle distance, the
playback manager's `calculateWaveArrival` (haversine at 200 km/h), and the
arrival used inside `generateTsunamiReadings` (flat-plane × 111 km at
500 km/h) are pairwise different answers to "when does the wave arrive". -/
theorem wave_speed_constants_inconsistent :
    mapWaveRadiusMeters (greatCircleDistanceKm 0 0 0 180 / mapWaveSpeedKmPerMin) =
      greatCircleDistanceKm 0 0 0 180 * 1000 ∧
    calculateWaveArrival 0 0 0 180 ≠ simArrivalMinutes 0 0 0 180 ∧
    calculateWaveArrival 0 0 0 180 ≠
      greatCircleDistanceKm 0 0 0 180 / mapWaveSpeedKmPerMin ∧
    simArrivalMinutes 0 0 0 180 ≠
      greatCircleDistanceKm 0 0 0 180 / mapWaveSpeedKmPerMin := by
  have hd := greatCircle_antipodal_equator
  have hsim : simArrivalMinutes 0 0 0 180 = 2397.6 := by
    rw [simArrivalMinutes, simDistance_antipodal_equator]
    norm_num
  have ha1 : calculateWaveArrival 0 0 0 180 = 6371 * Real.pi / 200 * 60 := by
    rw [calculateWaveArrival, hd]
  have hspeed : mapWaveSpeedKmPerMin = 12 := by norm_num [mapWaveSpeedKmPerMin]
  have hpi1 := Real.pi_gt_d2
  have hpi2 := Real.pi_lt_d2
  refine ⟨?_, ?_, ?_, ?_⟩
  · rw [mapWaveRadiusMeters, hspeed,
      div_mul_cancel₀ _ (by norm_num : (12:ℝ) ≠ 0)]
  · rw [ha1, hsim]
    intro heq
    nlinarith
  · rw [ha1, hd, hspeed]
    intro heq
    nlinarith
  · rw [hsim, hd, hspeed]
    intro heq
    nlinarith

/-- One element of the series returned by `generateTsunamiReadings`
(timestamps are epoch milliseconds). -/
structure SimReading where
  timestamp : ℝ
  waveHeight : ℝ
  waterColumnHeight : ℝ
  dominantWavePeriod : ℝ
  atmosphericPressure : ℝ
  isTsunamiWave : Bool

/-- `generateTsunamiReadings` of the tsunami-simulation module. Readings are
produced every 6 minutes over the requested duration; the tsunami component
(three staggered decaying sine pulses, amplitude
`max(0, (magnitude - 7) * 2 - distance / 1000)`) is added to the ambient
background exactly when the sample is inside the 3-hour post-arrival window,
the amplitude is positive, and the summed component exceeds the
0.5 noise threshold. The two `Math.random()` draws of each sample are
supplied by the oracles `rand1` (wave period) and `rand2` (pressure). -/
noncomputable def generateTsunamiReadings (buoyLat buoyLon epicenterLat epicenterLon
    magnitude startTime : ℝ) (durationHours : ℕ) (rand1 rand2 : ℕ → ℝ) :
    List SimReading :=
  (List.range (durationHours * 60 / 6)).map fun (i : ℕ) =>
    let distance := simDistanceKm buoyLat buoyLon epicenterLat epicenterLon
    let arrivalTime := startTime + simArrivalMinutes buoyLat buoyLon epicenterLat epicenterLon * 60 * 1000
    let currentTime := startTime + (i : ℝ) * 6 * 60 * 1000
    let minutesSinceStart := (currentTime - startTime) / (1000 * 60)
    let minutesSinceArrival := (currentTime - arrivalTime) / (1000 * 60)
    let tsunamiAmplitude := max 0 ((magnitude - 7) * 2 - distance / 1000)
    let wave1 := tsunamiAmplitude * Real.exp (-minutesSinceArrival / 60) *
      Real.sin ((minutesSinceArrival - 0) / 15)
    let wave2 := tsunamiAmplitude * 0.7 * Real.exp (-(minutesSinceArrival - 30) / 60) *
      Real.sin ((minutesSinceArrival - 30) / 18)
    let wave3 := tsunamiAmplitude * 0.5 * Real.exp (-(minutesSinceArrival - 60) / 60) *
      Real.sin ((minutesSinceArrival - 60) / 22)
    let tsunamiComponent := max 0 (wave1 + wave2 + wave3)
    let addWave := (0 < minutesSinceArrival ∧ minutesSinceArrival < 180) ∧
      0 < tsunamiAmplitude ∧ 0.5 < tsunamiComponent
    let waveHeight := if addWave then
        1.2 + Real.sin (minutesSinceStart / 30) * 0.3 + tsunamiComponent
      else 1.2 + Real.sin (minutesSinceStart / 30) * 0.3
    { timestamp := currentTime
      waveHeight := max 0.1 waveHeight
      waterColumnHeight := max 0.1 waveHeight
      dominantWavePeriod := if addWave then 25 + rand1 i * 15 else 8 + rand1 i * 4
      atmosphericPressure := 1013 + Real.sin (minutesSinceStart / 60) * 5 +
        (rand2 i - 0.5) * 3
      isTsunamiWave := if addWave then true else false }

/-- The background-only series: the ambient sea state
`1.2 + sin(minutesSinceStart / 30) * 0.3` with no tsunami component and
`isTsunamiWave = false` at every sample. -/
noncomputable def backgroundSeries (startTime : ℝ) (durationHours : ℕ)
    (rand1 rand2 : ℕ → ℝ) : List SimReading :=
  (List.range (durationHours * 60 / 6)).map fun (i : ℕ) =>
    let currentTime := startTime + (i : ℝ) * 6 * 60 * 1000
    let minutesSinceStart := (currentTime - startTime) / (1000 * 60)
    { timestamp := currentTime
      waveHeight := max 0.1 (1.2 + Real.sin (minutesSinceStart / 30) * 0.3)
      waterColumnHeight := max 0.1 (1.2 + Real.sin (minutesSinceStart / 30) * 0.3)
      dominantWavePeriod := 8 + rand1 i * 4
      atmosphericPressure := 1013 + Real.sin (minutesSinceStart / 60) * 5 +
        (rand2 i - 0.5) * 3
      isTsunamiWave := false }

/-- C9: for every station/epicenter geometry, start time and duration, a zero
or negative magnitude collapses the tsunami amplitude to zero, so the series
returned by `generateTsunamiReadings` is exactly the background-only series:
every sample's height is the ambient background value and `isTsunamiWave` is
false everywhere (by definition of `backgroundSeries`). -/
theorem generateTsunamiReadings_nonpositive_magnitude (buoyLat buoyLon epicenterLat
    epicenterLon magnitude startTime : ℝ) (durationHours : ℕ) (rand1 rand2 : ℕ → ℝ)
    (hm : magnitude ≤ 0) :
    generateTsunamiReadings buoyLat buoyLon epicenterLat epicenterLon magnitude
        startTime durationHours rand1 rand2 =
      backgroundSeries startTime durationHours rand1 rand2 := by
  unfold generateTsunamiReadings backgroundSeries
  apply List.map_congr_left
  intro i _
  have hdist : 0 ≤ simDistanceKm buoyLat buoyLon epicenterLat epicenterLon := by
    unfold simDistanceKm
    positivity
  have hamp : max 0 ((magnitude - 7) * 2 -
      simDistanceKm buoyLat buoyLon epicenterLat epicenterLon / 1000) = 0 := by
    apply max_eq_left
    nlinarith
  simp only [hamp, lt_irrefl, false_and, and_false, if_false, ite_false]

theorem generateTsunamiReadings_nonpositive_magnitude_witness :
    (0:ℝ) ≤ 0 ∧
    generateTsunamiReadings 0 0 0 180 0 0 4 (fun _ => 0) (fun _ => 0) =
      backgroundSeries 0 4 (fun _ => 0) (fun _ => 0) :=
  ⟨le_refl 0,
    generateTsunamiReadings_nonpositive_magnitude 0 0 0 180 0 0 4
      (fun _ => 0) (fun _ => 0) (le_refl 0)⟩

end Propagation
